import Mathlib

/-!
Verification of the Lyon Flood Lab scenario model.

This file embeds the deterministic core of the flood-demo application:
the Mulberry32 pseudo-random generator and the seeded synthetic building
dataset, the mitigation-attenuation / depth / depth-damage formulas, the
aggregate damage pass, and the URL state codec.  JavaScript numbers are
modelled exactly: 32-bit integer operations of the generator as natural
numbers reduced modulo 2^32 (bit patterns coincide with JS two's-complement
semantics at every use site), generator outputs and dataset fields as exact
rationals, and the continuous formulas over the reals.
-/

namespace LyonFloodLab

/-- Mitigation flags: green roofs, permeable pavement, temporary barriers
(the three checkboxes of the UI). -/
structure Mitigation where
  greenRoofs : Bool
  permeable : Bool
  barriers : Bool
deriving DecidableEq

/-- Pointwise order on mitigation states: `m ≤ m'` when every flag set in `m`
is also set in `m'`. -/
def Mitigation.le (m m' : Mitigation) : Prop :=
  m.greenRoofs ≤ m'.greenRoofs ∧ m.permeable ≤ m'.permeable ∧ m.barriers ≤ m'.barriers

/-- One of the three mitigation flags, as a selector. -/
inductive MitFlag
  | greenRoofs
  | permeable
  | barriers
deriving DecidableEq

/-- Read the selected flag. -/
def getFlag (f : MitFlag) (m : Mitigation) : Bool :=
  match f with
  | MitFlag.greenRoofs => m.greenRoofs
  | MitFlag.permeable => m.permeable
  | MitFlag.barriers => m.barriers

/-- Switch the selected flag on, leaving the other two unchanged. -/
def setFlag (f : MitFlag) (m : Mitigation) : Mitigation :=
  match f with
  | MitFlag.greenRoofs => { m with greenRoofs := true }
  | MitFlag.permeable => { m with permeable := true }
  | MitFlag.barriers => { m with barriers := true }

/-- Source `computeMitigationAttenuation`: starts from 0, adds 0.08 for green
roofs, 0.10 for permeable pavement and 0.12 for barriers, and caps the sum
at 0.35 (`Math.min(0.35, atten)`). -/
noncomputable def computeMitigationAttenuation (m : Mitigation) : ℝ :=
  let atten : ℝ := 0
  let atten := if m.greenRoofs then atten + 0.08 else atten
  let atten := if m.permeable then atten + 0.10 else atten
  let atten := if m.barriers then atten + 0.12 else atten
  min 0.35 atten

/-- JavaScript `Math.hypot(x, y)`: the square root of the sum of squares. -/
noncomputable def hypot (x y : ℝ) : ℝ :=
  Real.sqrt (x ^ 2 + y ^ 2)

/-- Source `centerline` of `depthAtPoint`: four `[lng, lat]` pairs. -/
noncomputable def centerline : List (ℝ × ℝ) :=
  [(4.835, 45.795), (4.835, 45.780), (4.835, 45.765), (4.835, 45.750)]

/-- Minimum of `Math.hypot(point[0] - lat, point[1] - lng)` over the
centerline entries.  The source initialises `minDist` to `Infinity` and keeps
the running minimum over the four (finite) distances, which over ℝ is the
fold of `min` from the first distance. -/
noncomputable def minDistToCenterline (point : ℝ × ℝ) : ℝ :=
  match centerline.map (fun c => hypot (point.1 - c.2) (point.2 - c.1)) with
  | [] => 0
  | d :: ds => ds.foldl min d

/-- Source `depthAtPoint(point, levelCm, mitigation)`: attenuates the level,
takes the minimum distance to the centerline and applies the linear decay
`max(0, L / 100 - minDist * 200)`.  `point` is a `(lat, lng)` pair. -/
noncomputable def depthAtPoint (point : ℝ × ℝ) (levelCm : ℝ) (m : Mitigation) : ℝ :=
  let attenuation := 1 - computeMitigationAttenuation m
  let L := levelCm * attenuation
  let minDist := minDistToCenterline point
  max 0 (L / 100 - minDist * 200)

/-- Source `depthDamageRatio(depthMeters)`: clamps the depth to 0, applies
`1 - Math.exp(-d * 0.8)` and caps the result at 0.95. -/
noncomputable def depthDamageRatio (depthMeters : ℝ) : ℝ :=
  let d := max 0 depthMeters
  let ratio := 1 - Real.exp (-d * 0.8)
  min 0.95 ratio

/-- Euclidean distance between two planar points, literally as the metric of
the Euclidean plane `EuclideanSpace ℝ (Fin 2)`.  Used only on the
specification side of claims. -/
noncomputable def specEuclideanDist (p q : ℝ × ℝ) : ℝ :=
  dist ((WithLp.equiv 2 (Fin 2 → ℝ)).symm ![p.1, p.2])
    ((WithLp.equiv 2 (Fin 2 → ℝ)).symm ![q.1, q.2])

/-- Modelled from the spec: `depthAt` computes the attenuated level
`levelCm * (1 - mitigationAttenuation)`, the minimum Euclidean distance from
the point to the four fixed centerline points `(lat, lng) = (45.795, 4.835),
(45.780, 4.835), (45.765, 4.835), (45.750, 4.835)`, converts via the linear
decay `attenuated / 100 - distance * 200` and floors the result at zero. -/
noncomputable def depthAtSpec (point : ℝ × ℝ) (levelCm : ℝ) (m : Mitigation) : ℝ :=
  let attenuated := levelCm * (1 - computeMitigationAttenuation m)
  let dmin :=
    min (specEuclideanDist point (45.795, 4.835))
      (min (specEuclideanDist point (45.780, 4.835))
        (min (specEuclideanDist point (45.765, 4.835)) (specEuclideanDist point (45.750, 4.835))))
  max 0 (attenuated / 100 - dmin * 200)

/-- State update of the source `mulberry32` closure: `t += 0x6D2B79F5`,
reduced modulo 2^32 (all uses of `t` read it through JS 32-bit coercions,
so only the residue matters). -/
def mulberryStep (t : Nat) : Nat :=
  (t + 0x6D2B79F5) % 4294967296

/-- Output computation of `mulberry32` from the current state: the body
`r = Math.imul(t ^ t >>> 15, 1 | t); r ^= r + Math.imul(r ^ r >>> 7, 61 | r);
return (r ^ r >>> 14) >>> 0` on 32-bit patterns.  `Math.imul` is
multiplication modulo 2^32, `^`, `>>>`, `|` act on the 32-bit pattern, and
the intermediate `+` of two 32-bit values followed by the coercion of `^=`
is addition modulo 2^32. -/
def mulberryOut (t0 : Nat) : Nat :=
  let t := t0 % 4294967296
  let r := ((t ^^^ (t >>> 15)) * (1 ||| t)) % 4294967296
  let r2 := r ^^^ ((r + (((r ^^^ (r >>> 7)) * (61 ||| r)) % 4294967296)) % 4294967296)
  r2 ^^^ (r2 >>> 14)

/-- Value returned by one call of the generator at state `t`:
`(pattern) / 4294967296`, an exact rational in `[0, 1)`. -/
def randValue (t : Nat) : ℚ :=
  (mulberryOut t : ℚ) / 4294967296

/-- One call of the generator: advance the state, then produce the value. -/
def nextRand (t : Nat) : Nat × ℚ :=
  let t1 := mulberryStep t
  (t1, randValue t1)

/-- Synthetic building record: id, centroid, replacement cost and the
critical-infrastructure flag, exactly the fields built by the source. -/
structure Building where
  id : Nat
  lat : ℚ
  lng : ℚ
  replacementCost : ℚ
  isCritical : Bool
deriving DecidableEq

/-- Source `lyonCenter = [45.764043, 4.835659]`. -/
def lyonCenter : ℚ × ℚ :=
  (45.764043, 4.835659)

/-- Generation loop of the source `buildings` array: record `i` draws, in
order, the latitude jitter, the longitude jitter, the cost draw and the
criticality draw (four generator calls), and the recursion threads the
generator state.  Returns the records, the final generator state, and the
number of generator calls consumed. -/
def buildRecords : Nat → Nat → Nat → List Building × Nat × Nat
  | t, _, 0 => ([], t, 0)
  | t, i, n + 1 =>
    let s1 := nextRand t
    let s2 := nextRand s1.1
    let s3 := nextRand s2.1
    let s4 := nextRand s3.1
    let latJitter := (s1.2 - 0.5) * 0.05
    let lngJitter := (s2.2 - 0.5) * 0.08
    let b : Building :=
      { id := i + 1
        lat := lyonCenter.1 + latJitter
        lng := lyonCenter.2 + lngJitter
        replacementCost := 100000 + s3.2 * 900000
        isCritical := decide (s4.2 < 0.06) }
    let rest := buildRecords s4.1 (i + 1) n
    (b :: rest.1, rest.2.1, rest.2.2 + 4)

/-- Source `buildings`: 400 records generated from `mulberry32(seed)`, with
the initial `seed >>> 0` coercion modelled by reduction modulo 2^32. -/
def buildings (seed : Nat) : List Building :=
  (buildRecords (seed % 4294967296) 0 400).1

/-- Number of generator calls consumed while building the dataset. -/
def buildingsDrawCount (seed : Nat) : Nat :=
  (buildRecords (seed % 4294967296) 0 400).2.2

/-- Loop body of the source `renderBuildings`: computes the depth at the
building's centroid, the `affected` test `depth > 0.05`, the ratio
(`depthDamageRatio` if affected, else 0), the damage `replacementCost * ratio`,
and updates the running total damage, affected count and critical count. -/
noncomputable def renderStep (levelCm : ℝ) (m : Mitigation) (acc : ℝ × Nat × Nat)
    (b : Building) : ℝ × Nat × Nat :=
  let depth := depthAtPoint ((b.lat : ℝ), (b.lng : ℝ)) levelCm m
  let ratio := if 0.05 < depth then depthDamageRatio depth else 0
  let damage := (b.replacementCost : ℝ) * ratio
  (acc.1 + damage,
   acc.2.1 + (if 0.05 < depth then 1 else 0),
   acc.2.2 + (if 0.05 < depth ∧ b.isCritical then 1 else 0))

/-- Aggregate pass of the source `renderBuildings` over a building list:
total damage, affected count, critical-affected count, all starting at 0. -/
noncomputable def renderBuildings (bs : List Building) (levelCm : ℝ) (m : Mitigation) :
    ℝ × Nat × Nat :=
  bs.foldl (renderStep levelCm m) (0, 0, 0)

/-- Total damage component of the aggregate pass (the value `renderBuildings`
returns to its caller in the source). -/
noncomputable def totalDamage (bs : List Building) (levelCm : ℝ) (m : Mitigation) : ℝ :=
  (renderBuildings bs levelCm m).1

/-- Damage contribution of a single building in the aggregate pass:
`replacementCost * (affected ? depthDamageRatio(depth) : 0)`. -/
noncomputable def buildingDamage (levelCm : ℝ) (m : Mitigation) (b : Building) : ℝ :=
  let depth := depthAtPoint ((b.lat : ℝ), (b.lng : ℝ)) levelCm m
  (b.replacementCost : ℝ) * (if 0.05 < depth then depthDamageRatio depth else 0)

/-- Boolean form of the `affected` test of the aggregate pass. -/
noncomputable def affectedB (levelCm : ℝ) (m : Mitigation) (b : Building) : Bool :=
  decide (0.05 < depthAtPoint ((b.lat : ℝ), (b.lng : ℝ)) levelCm m)

/-- Query-string parameters used by the state codec.  `URLSearchParams`
stores strings; for the integer-valued parameters handled here the JS
`String`/`Number` round trip is exact, so `level` and `seed` are modelled by
their numeric value (`none` = parameter absent), while the boolean flags
keep their literal `"1"` / `"0"` encoding. -/
structure URLParams where
  level : Option Nat
  gr : Option String
  pp : Option String
  tb : Option String
  seed : Option Nat
deriving DecidableEq

/-- Source `syncURL(levelCm)`: always writes `level` and the three flags as
`'1'` / `'0'`, and writes `seed` only when the seed is truthy (nonzero). -/
def syncURL (levelCm : Nat) (m : Mitigation) (seed : Nat) : URLParams :=
  { level := some levelCm
    gr := some (if m.greenRoofs then "1" else "0")
    pp := some (if m.permeable then "1" else "0")
    tb := some (if m.barriers then "1" else "0")
    seed := if seed ≠ 0 then some seed else none }

/-- JS idiom `Number(p.get(k)) || dflt`: an absent parameter reads as `NaN`
(from `Number(null)` = 0 onward falsy), and a parameter whose numeric value
is 0 is falsy as well, so both fall back to the default. -/
def numberOrDefault (v : Option Nat) (dflt : Nat) : Nat :=
  match v with
  | none => dflt
  | some n => if n = 0 then dflt else n

/-- Source `readURL()`: level via `Number(p.get('level')) || 120`, each flag
via the literal comparison `p.get(k) === '1'`. -/
def readURL (p : URLParams) : Nat × Mitigation :=
  (numberOrDefault p.level 120,
   { greenRoofs := p.gr == some "1"
     permeable := p.pp == some "1"
     barriers := p.tb == some "1" })

/-- Source top-level `seed` binding:
`Number(new URLSearchParams(location.search).get('seed')) || 1337`. -/
def readSeed (p : URLParams) : Nat :=
  numberOrDefault p.seed 1337

/-- A query string carrying none of the codec's parameters. -/
def emptyParams : URLParams :=
  { level := none, gr := none, pp := none, tb := none, seed := none }

/-! Helper lemmas about the mitigation attenuation. -/

lemma attenuation_eq_uncapped (m : Mitigation) :
    computeMitigationAttenuation m =
      (if m.greenRoofs then (0.08 : ℝ) else 0) + (if m.permeable then (0.10 : ℝ) else 0) +
        (if m.barriers then (0.12 : ℝ) else 0) := by
  obtain ⟨g, p, b⟩ := m
  cases g <;> cases p <;> cases b <;> simp [computeMitigationAttenuation] <;> norm_num

lemma ite_flag_mono {x y : Bool} (c : ℝ) (hc : 0 ≤ c) (hxy : x ≤ y) :
    (if x then c else 0) ≤ if y then c else 0 := by
  cases x
  · cases y <;> simp [hc]
  · cases y
    · exact absurd hxy (by decide)
    · simp

lemma attenuation_mono {m m' : Mitigation} (h : Mitigation.le m m') :
    computeMitigationAttenuation m ≤ computeMitigationAttenuation m' := by
  obtain ⟨h1, h2, h3⟩ := h
  rw [attenuation_eq_uncapped, attenuation_eq_uncapped]
  have g1 := ite_flag_mono (x := m.greenRoofs) (y := m'.greenRoofs) 0.08 (by norm_num) h1
  have g2 := ite_flag_mono (x := m.permeable) (y := m'.permeable) 0.10 (by norm_num) h2
  have g3 := ite_flag_mono (x := m.barriers) (y := m'.barriers) 0.12 (by norm_num) h3
  linarith

lemma attenuation_nonneg (m : Mitigation) : 0 ≤ computeMitigationAttenuation m := by
  rw [attenuation_eq_uncapped]
  obtain ⟨g, p, b⟩ := m
  cases g <;> cases p <;> cases b <;> norm_num

lemma le_setFlag (f : MitFlag) (m : Mitigation) : Mitigation.le m (setFlag f m) := by
  cases f <;> exact ⟨by simp [setFlag], by simp [setFlag], by simp [setFlag]⟩

/-- C7: for every mitigation state, `computeMitigationAttenuation` returns the
sum of the per-flag contributions 0.08, 0.10 and 0.12 capped at 0.35, the
result lies in `[0, 0.35]`, and it is monotone non-decreasing in each flag. -/
theorem C7_mitigationAttenuation_correct :
    (∀ m : Mitigation,
        computeMitigationAttenuation m =
          min 0.35 ((if m.greenRoofs then (0.08 : ℝ) else 0) +
            (if m.permeable then (0.10 : ℝ) else 0) +
              (if m.barriers then (0.12 : ℝ) else 0)) ∧
        0 ≤ computeMitigationAttenuation m ∧ computeMitigationAttenuation m ≤ 0.35) ∧
    ∀ m m' : Mitigation, Mitigation.le m m' →
      computeMitigationAttenuation m ≤ computeMitigationAttenuation m' := by
  constructor
  · intro m
    refine ⟨?_, attenuation_nonneg m, ?_⟩
    · obtain ⟨g, p, b⟩ := m
      cases g <;> cases p <;> cases b <;> simp [computeMitigationAttenuation]
    · rw [attenuation_eq_uncapped]
      obtain ⟨g, p, b⟩ := m
      cases g <;> cases p <;> cases b <;> norm_num
  · exact fun m m' h => attenuation_mono h

/-- Witness for C7 at a concrete pair of mitigation states. -/
theorem C7_witness :
    computeMitigationAttenuation ⟨false, false, false⟩ ≤
      computeMitigationAttenuation ⟨true, true, true⟩ :=
  C7_mitigationAttenuation_correct.2 ⟨false, false, false⟩ ⟨true, true, true⟩
    ⟨by simp, by simp, by simp⟩

/-- C10: the attenuation never exceeds 0.30 (the exact sum of all three
contributions), so the 0.35 cap is never attained and the capping branch has
no effect: the result always equals the uncapped sum. -/
theorem C10_attenuation_cap_unreachable :
    ∀ m : Mitigation,
      computeMitigationAttenuation m ≤ 0.30 ∧
      computeMitigationAttenuation m =
        (if m.greenRoofs then (0.08 : ℝ) else 0) + (if m.permeable then (0.10 : ℝ) else 0) +
          (if m.barriers then (0.12 : ℝ) else 0) := by
  intro m
  refine ⟨?_, attenuation_eq_uncapped m⟩
  rw [attenuation_eq_uncapped]
  obtain ⟨g, p, b⟩ := m
  cases g <;> cases p <;> cases b <;> norm_num

/-- C9: decoding a query string with no parameters yields level 120, all
mitigation flags false, and seed 1337. -/
theorem C9_decode_defaults :
    readURL emptyParams = (120, ⟨false, false, false⟩) ∧ readSeed emptyParams = 1337 :=
  ⟨rfl, rfl⟩

/-- C2: decoding the query string produced by encoding a UI state (nonzero
level and nonzero seed, as the UI guarantees) yields the state again. -/
theorem C2_url_roundtrip (levelCm seed : Nat) (m : Mitigation)
    (hl : 0 < levelCm) (hs : 0 < seed) :
    readURL (syncURL levelCm m seed) = (levelCm, m) ∧
    readSeed (syncURL levelCm m seed) = seed := by
  obtain ⟨g, p, b⟩ := m
  constructor
  · simp only [readURL, syncURL, numberOrDefault, Prod.mk.injEq]
    constructor
    · simp [Nat.pos_iff_ne_zero.mp hl]
    · cases g <;> cases p <;> cases b <;> simp
  · simp [readSeed, syncURL, numberOrDefault, Nat.pos_iff_ne_zero.mp hs]

/-- Witness for C2: the round trip at the concrete state of the claim,
level 180, green roofs on, permeable off, barriers on, seed 42. -/
theorem C2_url_roundtrip_witness :
    readURL (syncURL 180 ⟨true, false, true⟩ 42) = (180, ⟨true, false, true⟩) ∧
    readSeed (syncURL 180 ⟨true, false, true⟩ 42) = 42 :=
  C2_url_roundtrip 180 42 ⟨true, false, true⟩ (by decide) (by decide)

/-! Helper lemmas about the depth-damage curve. -/

lemma depthDamageRatio_def (d : ℝ) :
    depthDamageRatio d = min 0.95 (1 - Real.exp (-(max 0 d) * 0.8)) := rfl

lemma one_sub_exp_nonneg (d : ℝ) : 0 ≤ 1 - Real.exp (-(max 0 d) * 0.8) := by
  have h0 : (0 : ℝ) ≤ max 0 d := le_max_left 0 d
  have h : -(max 0 d) * 0.8 ≤ 0 := by nlinarith
  have := Real.exp_le_one_iff.mpr h
  linarith

lemma depthDamageRatio_nonneg (d : ℝ) : 0 ≤ depthDamageRatio d := by
  rw [depthDamageRatio_def]
  exact le_min (by norm_num) (one_sub_exp_nonneg d)

lemma depthDamageRatio_le (d : ℝ) : depthDamageRatio d ≤ 0.95 := by
  rw [depthDamageRatio_def]
  exact min_le_left _ _

lemma depthDamageRatio_mono {d1 d2 : ℝ} (h : d1 ≤ d2) :
    depthDamageRatio d1 ≤ depthDamageRatio d2 := by
  rw [depthDamageRatio_def, depthDamageRatio_def]
  apply min_le_min le_rfl
  have hm : max 0 d1 ≤ max 0 d2 := max_le_max le_rfl h
  have he : Real.exp (-(max 0 d2) * 0.8) ≤ Real.exp (-(max 0 d1) * 0.8) :=
    Real.exp_le_exp.mpr (by nlinarith)
  linarith

lemma depthDamageRatio_strict {d1 d2 : ℝ} (h0 : 0 ≤ d1) (h12 : d1 < d2)
    (hcap : depthDamageRatio d2 < 0.95) : depthDamageRatio d1 < depthDamageRatio d2 := by
  rw [depthDamageRatio_def] at hcap ⊢
  have hr2 : 1 - Real.exp (-(max 0 d2) * 0.8) < 0.95 := by
    by_contra hge
    push_neg at hge
    rw [min_eq_left hge] at hcap
    exact lt_irrefl _ hcap
  have hm1 : max 0 d1 = d1 := max_eq_right h0
  have hm2 : max 0 d2 = d2 := max_eq_right (h0.trans h12.le)
  have he : Real.exp (-(max 0 d2) * 0.8) < Real.exp (-(max 0 d1) * 0.8) := by
    apply Real.exp_lt_exp.mpr
    rw [hm1, hm2]
    nlinarith
  calc min 0.95 (1 - Real.exp (-(max 0 d1) * 0.8)) ≤ 1 - Real.exp (-(max 0 d1) * 0.8) :=
        min_le_right _ _
    _ < 1 - Real.exp (-(max 0 d2) * 0.8) := by linarith
    _ = min 0.95 (1 - Real.exp (-(max 0 d2) * 0.8)) := (min_eq_right hr2.le).symm

lemma twenty_lt_exp_three : (20 : ℝ) < Real.exp 3 := by
  have h1 : (2.7182818283 : ℝ) < Real.exp 1 := Real.exp_one_gt_d9
  have h3 : Real.exp 3 = Real.exp 1 * Real.exp 1 * Real.exp 1 := by
    rw [← Real.exp_add, ← Real.exp_add]
    norm_num
  nlinarith [Real.exp_pos 1]

lemma exp_neg_le_of_three_le {x : ℝ} (hx : (3 : ℝ) ≤ x) : Real.exp (-x) ≤ 0.05 := by
  have h20 : (20 : ℝ) < Real.exp x := lt_of_lt_of_le twenty_lt_exp_three (Real.exp_le_exp.mpr hx)
  rw [Real.exp_neg]
  have hinv : (Real.exp x)⁻¹ ≤ (20 : ℝ)⁻¹ := by
    apply inv_anti₀ (by norm_num) h20.le
  calc (Real.exp x)⁻¹ ≤ (20 : ℝ)⁻¹ := hinv
    _ ≤ 0.05 := by norm_num

lemma depthDamageRatio_at_cap {d : ℝ} (hd : (3.75 : ℝ) ≤ d) : depthDamageRatio d = 0.95 := by
  rw [depthDamageRatio_def, max_eq_right (by linarith)]
  have hexp : Real.exp (-d * 0.8) ≤ 0.05 := by
    rw [show -d * 0.8 = -(d * 0.8) by ring]
    exact exp_neg_le_of_three_le (by nlinarith)
  rw [min_eq_left (by linarith)]

lemma depthDamageRatio_one_lt_cap : depthDamageRatio 1 < 0.95 := by
  rw [depthDamageRatio_def, max_eq_right zero_le_one]
  have h1 : Real.exp (-1) ≤ Real.exp (-(1 : ℝ) * 0.8) := Real.exp_le_exp.mpr (by norm_num)
  have h2 : (0.36787944116 : ℝ) < Real.exp (-1) := Real.exp_neg_one_gt_d9
  apply lt_of_le_of_lt (min_le_right _ _)
  linarith

/-- C8: for every depth `d`, `depthDamageRatio d` equals
`1 - e^(-0.8 * max 0 d)` capped at 0.95, the result lies in `[0, 0.95]`,
`depthDamageRatio 0 = 0`, and the function is non-decreasing. -/
theorem C8_depthDamageRatio_correct :
    (∀ d : ℝ,
        depthDamageRatio d = min 0.95 (1 - Real.exp (-0.8 * max 0 d)) ∧
        0 ≤ depthDamageRatio d ∧ depthDamageRatio d ≤ 0.95) ∧
    depthDamageRatio 0 = 0 ∧
    ∀ d1 d2 : ℝ, d1 ≤ d2 → depthDamageRatio d1 ≤ depthDamageRatio d2 := by
  refine ⟨fun d => ⟨?_, depthDamageRatio_nonneg d, depthDamageRatio_le d⟩, ?_, ?_⟩
  · rw [depthDamageRatio_def, show -(max 0 d) * 0.8 = -0.8 * max 0 d by ring]
  · rw [depthDamageRatio_def]
    norm_num
  · exact fun d1 d2 h => depthDamageRatio_mono h

/-- Witness for C8's monotonicity at the concrete depths 0 and 1. -/
theorem C8_witness : depthDamageRatio 0 ≤ depthDamageRatio 1 :=
  C8_depthDamageRatio_correct.2.2 0 1 zero_le_one

/-- C4 fails on the code: the ratio attains the cap 0.95 from depth
`ln 20 / 0.8 ≈ 3.745` onward, so it is not strictly increasing on `[0, ∞)`
(for example it takes the same value 0.95 at depths 4 and 5) and it is not
below 0.95 everywhere. -/
theorem C4_counterexample :
    (¬ ∀ d1 d2 : ℝ, 0 ≤ d1 → d1 < d2 → depthDamageRatio d1 < depthDamageRatio d2) ∧
    ¬ ∀ d : ℝ, depthDamageRatio d < 0.95 := by
  constructor
  · intro h
    have h45 := h 4 5 (by norm_num) (by norm_num)
    rw [depthDamageRatio_at_cap (by norm_num : (3.75 : ℝ) ≤ 4),
      depthDamageRatio_at_cap (by norm_num : (3.75 : ℝ) ≤ 5)] at h45
    exact lt_irrefl _ h45
  · intro h
    have h4 := h 4
    rw [depthDamageRatio_at_cap (by norm_num : (3.75 : ℝ) ≤ 4)] at h4
    exact lt_irrefl _ h4

/-- C4 as amended: on nonnegative depths the ratio is non-decreasing, and
strictly increasing whenever the value at the larger depth is still below
the 0.95 cap; the ratio never exceeds 0.95 (it attains the cap at large
depths instead of approaching it from below). -/
theorem C4_damageRatio_monotone_capped :
    (∀ d1 d2 : ℝ, 0 ≤ d1 → d1 < d2 →
        depthDamageRatio d1 ≤ depthDamageRatio d2 ∧
          (depthDamageRatio d2 < 0.95 → depthDamageRatio d1 < depthDamageRatio d2)) ∧
    ∀ d : ℝ, depthDamageRatio d ≤ 0.95 :=
  ⟨fun _ _ h0 h12 =>
      ⟨depthDamageRatio_mono h12.le, fun hcap => depthDamageRatio_strict h0 h12 hcap⟩,
    fun d => depthDamageRatio_le d⟩

/-- Witness for C4's amended statement: strict increase between the concrete
depths 0 and 1, which lie below the cap. -/
theorem C4_damageRatio_witness : depthDamageRatio 0 < depthDamageRatio 1 :=
  (C4_damageRatio_monotone_capped.1 0 1 le_rfl one_pos).2 depthDamageRatio_one_lt_cap

/-! Helper lemmas about the depth field. -/

lemma specEuclideanDist_eq (p q : ℝ × ℝ) :
    specEuclideanDist p q = Real.sqrt ((p.1 - q.1) ^ 2 + (p.2 - q.2) ^ 2) := by
  rw [specEuclideanDist, EuclideanSpace.dist_eq]
  congr 1
  rw [Fin.sum_univ_two]
  simp [WithLp.equiv_symm_pi_apply, Real.dist_eq, sq_abs]

lemma specEuclideanDist_eq_hypot (p : ℝ × ℝ) (a b : ℝ) :
    specEuclideanDist p (a, b) = hypot (p.1 - a) (p.2 - b) := by
  rw [specEuclideanDist_eq, hypot]

lemma minDistToCenterline_eq (p : ℝ × ℝ) :
    minDistToCenterline p =
      min (min (min (hypot (p.1 - 45.795) (p.2 - 4.835)) (hypot (p.1 - 45.780) (p.2 - 4.835)))
          (hypot (p.1 - 45.765) (p.2 - 4.835)))
        (hypot (p.1 - 45.750) (p.2 - 4.835)) := rfl

lemma hypot_nonneg (x y : ℝ) : 0 ≤ hypot x y := Real.sqrt_nonneg _

lemma minDistToCenterline_nonneg (p : ℝ × ℝ) : 0 ≤ minDistToCenterline p := by
  rw [minDistToCenterline_eq]
  simp [le_min_iff, hypot_nonneg]

/-- C1: `depthAtPoint` computes the attenuated level, takes the minimum
Euclidean distance (in the metric of the Euclidean plane) from the point to
the four fixed centerline points, converts it through the linear decay
`attenuated / 100 - distance * 200` floored at zero, and never returns a
negative value for any input. -/
theorem C1_depthAt_correct :
    ∀ (point : ℝ × ℝ) (levelCm : ℝ) (m : Mitigation),
      depthAtPoint point levelCm m = depthAtSpec point levelCm m ∧
      0 ≤ depthAtPoint point levelCm m := by
  intro point levelCm m
  refine ⟨?_, le_max_left 0 _⟩
  simp only [depthAtPoint, depthAtSpec, minDistToCenterline_eq, specEuclideanDist_eq_hypot,
    min_assoc]

/-! Helper lemmas about the aggregate pass. -/

lemma renderStep_eq (levelCm : ℝ) (m : Mitigation) (acc : ℝ × Nat × Nat) (b : Building) :
    renderStep levelCm m acc b =
      (acc.1 + buildingDamage levelCm m b,
       acc.2.1 + (if affectedB levelCm m b then 1 else 0),
       acc.2.2 + (if affectedB levelCm m b && b.isCritical then 1 else 0)) := by
  by_cases h : 0.05 < depthAtPoint ((b.lat : ℝ), (b.lng : ℝ)) levelCm m <;>
    cases hc : b.isCritical <;>
      simp [renderStep, buildingDamage, affectedB, h, hc]

lemma foldl_renderStep (levelCm : ℝ) (m : Mitigation) (bs : List Building) :
    ∀ a : ℝ × Nat × Nat,
      bs.foldl (renderStep levelCm m) a =
        (a.1 + (bs.map (buildingDamage levelCm m)).sum,
         a.2.1 + bs.countP (affectedB levelCm m),
         a.2.2 + bs.countP fun b => affectedB levelCm m b && b.isCritical) := by
  induction bs with
  | nil => intro a; simp
  | cons b bs ih =>
    intro a
    rw [List.foldl_cons, renderStep_eq, ih]
    simp only [List.map_cons, List.sum_cons, List.countP_cons, Prod.mk.injEq]
    refine ⟨by ring, by ring, by ring⟩

lemma totalDamage_eq (bs : List Building) (levelCm : ℝ) (m : Mitigation) :
    totalDamage bs levelCm m = (bs.map (buildingDamage levelCm m)).sum := by
  rw [totalDamage, renderBuildings, foldl_renderStep]
  simp

/-- C6: the aggregate pass computes each building's depth, marks it affected
exactly when the depth exceeds 0.05 m, charges `replacementCost *
depthDamageRatio(depth)` for affected buildings and 0 otherwise, and returns
the total damage, the affected count, and the affected-and-critical count. -/
theorem C6_aggregate_correct :
    ∀ (bs : List Building) (levelCm : ℝ) (m : Mitigation),
      renderBuildings bs levelCm m =
        ((bs.map fun b =>
            if 0.05 < depthAtPoint ((b.lat : ℝ), (b.lng : ℝ)) levelCm m then
              (b.replacementCost : ℝ) *
                depthDamageRatio (depthAtPoint ((b.lat : ℝ), (b.lng : ℝ)) levelCm m)
            else 0).sum,
          bs.countP fun b =>
            decide (0.05 < depthAtPoint ((b.lat : ℝ), (b.lng : ℝ)) levelCm m),
          bs.countP fun b =>
            decide (0.05 < depthAtPoint ((b.lat : ℝ), (b.lng : ℝ)) levelCm m) &&
              b.isCritical) := by
  intro bs levelCm m
  rw [renderBuildings, foldl_renderStep]
  simp only [affectedB, zero_add]
  congr 1
  apply congrArg
  apply List.map_congr_left
  intro b _
  rw [buildingDamage]
  by_cases h : 0.05 < depthAtPoint ((b.lat : ℝ), (b.lng : ℝ)) levelCm m <;> simp [h]

/-! Helper lemmas about the seeded dataset. -/

lemma buildRecords_drawCount : ∀ (n t i : Nat), (buildRecords t i n).2.2 = 4 * n := by
  intro n
  induction n with
  | zero => intro t i; rfl
  | succ k ih =>
    intro t i
    simp only [buildRecords]
    rw [ih]
    omega

lemma randValue_nonneg (t : Nat) : 0 ≤ randValue t := by
  rw [randValue]
  positivity

lemma nextRand_snd_nonneg (t : Nat) : 0 ≤ (nextRand t).2 := by
  simp only [nextRand]
  exact randValue_nonneg _

lemma buildRecords_cost_nonneg :
    ∀ (n t i : Nat) (b : Building), b ∈ (buildRecords t i n).1 → 0 ≤ b.replacementCost := by
  intro n
  induction n with
  | zero => intro t i b hb; simp [buildRecords] at hb
  | succ k ih =>
    intro t i b hb
    simp only [buildRecords, List.mem_cons] at hb
    rcases hb with hb | hb
    · subst hb
      have hr := nextRand_snd_nonneg ((nextRand (nextRand t).1).1)
      show (0 : ℚ) ≤ 100000 + (nextRand ((nextRand (nextRand t).1).1)).2 * 900000
      nlinarith
    · exact ih _ _ b hb

lemma buildings_cost_nonneg (seed : Nat) :
    ∀ b ∈ buildings seed, 0 ≤ b.replacementCost :=
  fun b hb => buildRecords_cost_nonneg 400 (seed % 4294967296) 0 b hb

/-- C3 fails on the code: building the 400 records consumes the stream four
times per record (latitude jitter, longitude jitter, cost, criticality),
1600 draws in total, not the claimed `3 * N = 1200`. -/
theorem C3_counterexample :
    buildingsDrawCount 1337 = 4 * 400 ∧ ¬ buildingsDrawCount 1337 = 3 * 400 := by
  have h : buildingsDrawCount 1337 = 4 * 400 := buildRecords_drawCount 400 (1337 % 4294967296) 0
  exact ⟨h, by rw [h]; omega⟩

/-- C3 as amended: building the `N = 400` records consumes the seeded stream
exactly `4 * N` times — per record the latitude jitter, the longitude jitter,
one draw for the cost and one for the criticality, in that fixed order — and
the dataset is a function of the seed alone (seeds equal modulo 2^32 yield
the same dataset). -/
theorem C3_generator_draws :
    (∀ seed : Nat, buildingsDrawCount seed = 4 * 400) ∧
    ∀ s1 s2 : Nat, s1 % 4294967296 = s2 % 4294967296 → buildings s1 = buildings s2 := by
  constructor
  · intro seed
    exact buildRecords_drawCount 400 (seed % 4294967296) 0
  · intro s1 s2 h
    rw [buildings, buildings, h]

/-- Witness for C3's amended statement: two concrete seeds equal modulo 2^32
yield the same dataset. -/
theorem C3_generator_draws_witness : buildings 1337 = buildings 4294968633 :=
  C3_generator_draws.2 1337 4294968633 (by norm_num)

/-! Helper lemmas for the mitigation-toggle comparison. -/

lemma depthAtPoint_anti {p : ℝ × ℝ} {lvl : ℝ} (hl : 0 ≤ lvl) {m m' : Mitigation}
    (h : computeMitigationAttenuation m ≤ computeMitigationAttenuation m') :
    depthAtPoint p lvl m' ≤ depthAtPoint p lvl m := by
  simp only [depthAtPoint]
  apply max_le_max le_rfl
  have hmul : lvl * (1 - computeMitigationAttenuation m') ≤
      lvl * (1 - computeMitigationAttenuation m) :=
    mul_le_mul_of_nonneg_left (by linarith) hl
  have hd := minDistToCenterline_nonneg p
  linarith

lemma buildingDamage_anti {lvl : ℝ} {m m' : Mitigation} {b : Building} (hl : 0 ≤ lvl)
    (h : computeMitigationAttenuation m ≤ computeMitigationAttenuation m')
    (hc : 0 ≤ (b.replacementCost : ℝ)) :
    buildingDamage lvl m' b ≤ buildingDamage lvl m b := by
  have hd := depthAtPoint_anti (p := ((b.lat : ℝ), (b.lng : ℝ))) hl h
  simp only [buildingDamage]
  apply mul_le_mul_of_nonneg_left ?_ hc
  by_cases h2 : 0.05 < depthAtPoint ((b.lat : ℝ), (b.lng : ℝ)) lvl m'
  · have h1 : 0.05 < depthAtPoint ((b.lat : ℝ), (b.lng : ℝ)) lvl m := lt_of_lt_of_le h2 hd
    rw [if_pos h2, if_pos h1]
    exact depthDamageRatio_mono hd
  · rw [if_neg h2]
    by_cases h1 : 0.05 < depthAtPoint ((b.lat : ℝ), (b.lng : ℝ)) lvl m
    · rw [if_pos h1]
      exact depthDamageRatio_nonneg _
    · rw [if_neg h1]

lemma depthAtPoint_level_zero (p : ℝ × ℝ) (m : Mitigation) : depthAtPoint p 0 m = 0 := by
  simp only [depthAtPoint]
  have hd := minDistToCenterline_nonneg p
  rw [max_eq_left (by nlinarith)]

lemma totalDamage_level_zero (bs : List Building) (m : Mitigation) :
    totalDamage bs 0 m = 0 := by
  rw [totalDamage_eq]
  apply List.sum_eq_zero
  intro x hx
  rw [List.mem_map] at hx
  obtain ⟨b, _, hb⟩ := hx
  rw [← hb]
  simp [buildingDamage, depthAtPoint_level_zero]
  norm_num

/-- C5 fails on the code as stated: at water level 0 with no prior
mitigation, toggling the green-roofs flag leaves the total damage unchanged
(both totals are 0) even though the resulting attenuation 0.08 is nowhere
near the 0.35 cap, so "strictly decreases, or leaves equal at the cap" is
violated at this concrete input. -/
theorem C5_counterexample :
    ¬ (totalDamage (buildings 1337) 0 (setFlag MitFlag.greenRoofs ⟨false, false, false⟩) <
        totalDamage (buildings 1337) 0 ⟨false, false, false⟩ ∨
      computeMitigationAttenuation (setFlag MitFlag.greenRoofs ⟨false, false, false⟩) = 0.35) := by
  rw [totalDamage_level_zero, totalDamage_level_zero]
  rintro (h | h)
  · exact lt_irrefl _ h
  · rw [show setFlag MitFlag.greenRoofs ⟨false, false, false⟩ = ⟨true, false, false⟩ from rfl,
      attenuation_eq_uncapped] at h
    norm_num at h

/-- C5 as amended: toggling any single mitigation flag from false to true
never increases the total computed damage for the same nonnegative level;
strict decrease is not guaranteed (the totals coincide, for example, when no
building is affected, regardless of the attenuation cap). -/
theorem C5_mitigation_toggle_nonincreasing :
    ∀ (seed : Nat) (levelCm : ℝ) (m : Mitigation) (f : MitFlag),
      0 ≤ levelCm → getFlag f m = false →
        totalDamage (buildings seed) levelCm (setFlag f m) ≤
          totalDamage (buildings seed) levelCm m := by
  intro seed lvl m f hl _
  rw [totalDamage_eq, totalDamage_eq]
  apply List.sum_le_sum
  intro b hb
  apply buildingDamage_anti hl (attenuation_mono (le_setFlag f m))
  exact_mod_cast buildings_cost_nonneg seed b hb

/-- Witness for C5's amended statement at a concrete seed, level and flag. -/
theorem C5_toggle_witness :
    totalDamage (buildings 1337) 0 (setFlag MitFlag.permeable ⟨false, false, false⟩) ≤
      totalDamage (buildings 1337) 0 ⟨false, false, false⟩ :=
  C5_mitigation_toggle_nonincreasing 1337 0 ⟨false, false, false⟩ MitFlag.permeable le_rfl rfl

end LyonFloodLab
